import Mathlib

/-!
Verification of the bookkeeping core of the `inr-expanses` repository.

The data model follows the SQL schema (tables `projects`, `transactions`,
`petty_cash_advance`, `activity_log`).  Monetary `DECIMAL(15, 2)` columns are
modelled as exact integers counted in hundredths (paise), so `150000.00` is
the integer `15000000`; fixed-point decimal addition and subtraction are exact
and coincide with integer arithmetic at this scale.

The balance-maintenance trigger `update_project_remaining_amount` is embedded
as three functions, one per `TG_OP` branch of the PL/pgSQL source
(`INSERT`, `UPDATE`, `DELETE`), each taking the `OLD`/`NEW` rows its branch
reads.  The database state visible to these triggers is the `projects` table
together with the append-only `activity_log`.
-/

inductive ProjectStatus where
  | prospect
  | active
  | completed
  | cancelled
deriving DecidableEq, Repr

inductive TransactionType where
  | credit
  | debit
deriving DecidableEq, Repr

inductive FundSource where
  | cash
  | bank
deriving DecidableEq, Repr

inductive AdvanceStatus where
  | open_
  | partially_returned
  | closed
deriving DecidableEq, Repr

/-- A JSON scalar as used in the `jsonb_build_object` payloads of the
trigger's activity-log inserts. -/
inductive JValue where
  | num (n : Int)
  | str (s : String)
  | id (u : Nat)
deriving DecidableEq, Repr

/-- Row of `public.projects`. -/
structure Project where
  id : Nat
  customer_id : Nat
  name : String
  description : Option String
  estimated_total : Int
  remaining_amount : Int
  status : ProjectStatus
  start_date : Option String
  end_date : Option String
  created_at : Nat
  updated_at : Nat
deriving DecidableEq, Repr

/-- Row of `public.transactions`. -/
structure Transaction where
  id : Nat
  project_id : Nat
  customer_id : Nat
  transaction_type : TransactionType
  fund_source : FundSource
  amount : Int
  payment_mode : Option String
  reason : String
  metadata : List (String × JValue)
  related_employee_id : Option Nat
  related_advance_id : Option Nat
deriving DecidableEq, Repr

/-- Row of `public.activity_log`; `data` is the `jsonb` payload as a
key-value list in insertion order. -/
structure ActivityLogEntry where
  actor_type : Option String
  actor_id : Option Nat
  action : String
  data : List (String × JValue)
deriving DecidableEq, Repr

/-- The database state the balance triggers read and write. -/
structure DB where
  projects : List Project
  activity_log : List ActivityLogEntry
deriving DecidableEq, Repr

def transactionTypeText : TransactionType → String
  | TransactionType.credit => "credit"
  | TransactionType.debit => "debit"

/-- Effect on one `projects` row of
`UPDATE public.projects SET remaining_amount = remaining_amount + delta WHERE id = pid`. -/
def applyDelta (pid : Nat) (delta : Int) (p : Project) : Project :=
  if p.id = pid then { p with remaining_amount := p.remaining_amount + delta } else p

/-- `UPDATE public.projects SET remaining_amount = remaining_amount + delta WHERE id = pid`
over the whole table; affects zero rows when no project has id `pid`. -/
def updateProjects (pid : Nat) (delta : Int) (ps : List Project) : List Project :=
  ps.map (applyDelta pid delta)

/-- `SELECT * FROM public.projects WHERE id = pid` (first match). -/
def findProject (pid : Nat) (db : DB) : Option Project :=
  db.projects.find? (fun p => p.id == pid)

/-- The `remaining_amount` of project `pid`, when it exists. -/
def remainingOf (pid : Nat) (db : DB) : Option Int :=
  (findProject pid db).map (fun p => p.remaining_amount)

/-- `TG_OP = 'INSERT'` branch of `public.update_project_remaining_amount`:
credit reduces the remaining amount, debit increases it; one balance
`UPDATE` on `NEW.project_id` and one `activity_log` insert. -/
def transactionInsertTrigger (new : Transaction) (db : DB) : DB :=
  let amount_change : Int :=
    if new.transaction_type = TransactionType.credit then -new.amount else new.amount
  { db with
    projects := updateProjects new.project_id amount_change db.projects,
    activity_log := db.activity_log ++
      [{ actor_type := some "system", actor_id := none,
         action := "project_balance_updated",
         data := [("project_id", JValue.id new.project_id),
                  ("transaction_id", JValue.id new.id),
                  ("transaction_type", JValue.str (transactionTypeText new.transaction_type)),
                  ("amount", JValue.num new.amount),
                  ("amount_change", JValue.num amount_change)] }] }

/-- `TG_OP = 'UPDATE'` branch of `public.update_project_remaining_amount`:
first reverse the old effect, then fold in the new effect, and apply the
combined `amount_change` in one balance `UPDATE` on `NEW.project_id`. -/
def transactionUpdateTrigger (old new : Transaction) (db : DB) : DB :=
  let reversed : Int :=
    if old.transaction_type = TransactionType.credit then old.amount else -old.amount
  let amount_change : Int :=
    if new.transaction_type = TransactionType.credit then reversed - new.amount
    else reversed + new.amount
  { db with
    projects := updateProjects new.project_id amount_change db.projects,
    activity_log := db.activity_log ++
      [{ actor_type := some "system", actor_id := none,
         action := "project_balance_updated",
         data := [("project_id", JValue.id new.project_id),
                  ("transaction_id", JValue.id new.id),
                  ("old_amount", JValue.num old.amount),
                  ("new_amount", JValue.num new.amount),
                  ("amount_change", JValue.num amount_change)] }] }

/-- `TG_OP = 'DELETE'` branch of `public.update_project_remaining_amount`:
reverse the transaction's effect on `OLD.project_id` and log with the
`operation = 'delete'` marker. -/
def transactionDeleteTrigger (old : Transaction) (db : DB) : DB :=
  let amount_change : Int :=
    if old.transaction_type = TransactionType.credit then old.amount else -old.amount
  { db with
    projects := updateProjects old.project_id amount_change db.projects,
    activity_log := db.activity_log ++
      [{ actor_type := some "system", actor_id := none,
         action := "project_balance_updated",
         data := [("project_id", JValue.id old.project_id),
                  ("transaction_id", JValue.id old.id),
                  ("amount", JValue.num old.amount),
                  ("amount_change", JValue.num amount_change),
                  ("operation", JValue.str "delete")] }] }

/-- `public.initialize_project_remaining_amount`, the `BEFORE INSERT`
trigger on `public.projects`: `NEW.remaining_amount := NEW.estimated_total`. -/
def initialize_project_remaining_amount (p : Project) : Project :=
  { p with remaining_amount := p.estimated_total }

/-- Run the insert trigger once per created transaction, in sequence. -/
def processCreates : List Transaction → DB → DB
  | [], db => db
  | t :: ts, db => processCreates ts (transactionInsertTrigger t db)

/-- Sum of the amounts of the credit transactions of a list. -/
def creditSum : List Transaction → Int
  | [] => 0
  | t :: ts =>
    (if t.transaction_type = TransactionType.credit then t.amount else 0) + creditSum ts

/-- Sum of the amounts of the debit transactions of a list. -/
def debitSum : List Transaction → Int
  | [] => 0
  | t :: ts =>
    (if t.transaction_type = TransactionType.debit then t.amount else 0) + debitSum ts

theorem applyDelta_id (pid : Nat) (delta : Int) (p : Project) :
    (applyDelta pid delta p).id = p.id := by
  unfold applyDelta
  split <;> rfl

theorem find_updateProjects (pid qid : Nat) (delta : Int) (ps : List Project) :
    (updateProjects pid delta ps).find? (fun p => p.id == qid) =
      (ps.find? (fun p => p.id == qid)).map (applyDelta pid delta) := by
  induction ps with
  | nil => rfl
  | cons q qs ih =>
    by_cases h : q.id = qid
    · rw [updateProjects, List.map_cons,
        List.find?_cons_of_pos _ (by simp [applyDelta_id, h]),
        List.find?_cons_of_pos _ (by simp [h]), Option.map_some']
    · rw [updateProjects, List.map_cons,
        List.find?_cons_of_neg _ (by simp [applyDelta_id, h]),
        List.find?_cons_of_neg _ (by simp [h])]
      exact ih

theorem findProject_id (pid : Nat) (db : DB) (p : Project)
    (hp : findProject pid db = some p) : p.id = pid := by
  have := List.find?_some hp
  simpa using this

theorem find_updateProjects_self (pid : Nat) (delta : Int) (db : DB) (p : Project)
    (hp : findProject pid db = some p) :
    (updateProjects pid delta db.projects).find? (fun q => q.id == pid) =
      some { p with remaining_amount := p.remaining_amount + delta } := by
  have hid : p.id = pid := findProject_id pid db p hp
  rw [find_updateProjects,
    show db.projects.find? (fun q => q.id == pid) = some p from hp, Option.map_some']
  simp [applyDelta, hid]

theorem remaining_after_processCreates (txs : List Transaction) (db : DB) (pid : Nat)
    (p : Project) (hp : findProject pid db = some p)
    (htx : ∀ t ∈ txs, t.project_id = pid) :
    remainingOf pid (processCreates txs db) =
      some (p.remaining_amount - creditSum txs + debitSum txs) := by
  induction txs generalizing db p with
  | nil =>
    unfold processCreates remainingOf
    rw [hp]
    simp [creditSum, debitSum]
  | cons t ts ih =>
    have hpid : t.project_id = pid := htx t (List.mem_cons_self t ts)
    have hrest : ∀ s ∈ ts, s.project_id = pid := fun s hs => htx s (List.mem_cons_of_mem t hs)
    rw [show processCreates (t :: ts) db = processCreates ts (transactionInsertTrigger t db)
      from rfl]
    have hfind :
        findProject pid (transactionInsertTrigger t db) =
          some { p with remaining_amount := p.remaining_amount +
            (if t.transaction_type = TransactionType.credit then -t.amount else t.amount) } := by
      have hstep :
          findProject pid (transactionInsertTrigger t db) =
            (updateProjects t.project_id
              (if t.transaction_type = TransactionType.credit then -t.amount else t.amount)
              db.projects).find? (fun q => q.id == pid) := rfl
      rw [hstep, hpid]
      exact find_updateProjects_self pid _ db p hp
    rw [ih (transactionInsertTrigger t db) _ hfind hrest]
    cases htt : t.transaction_type <;>
      simp [creditSum, debitSum, htt] <;> omega

/-- Claim C1: starting from a freshly created Project (persisted through the
`BEFORE INSERT` initializer, so its `remaining_amount` equals its
`estimated_total` `E`) and running the Balance Maintainer's insert branch for
each created Transaction in sequence, the Project's `remaining_amount` ends at
`E` minus the sum of the credit amounts plus the sum of the debit amounts. -/
theorem c1_fresh_project_invariant (db : DB) (pid : Nat) (p : Project)
    (txs : List Transaction)
    (hp : findProject pid db = some (initialize_project_remaining_amount p))
    (htx : ∀ t ∈ txs, t.project_id = pid) :
    remainingOf pid (processCreates txs db) =
      some (p.estimated_total - creditSum txs + debitSum txs) := by
  have h := remaining_after_processCreates txs db pid
    (initialize_project_remaining_amount p) hp htx
  rw [h]
  rfl

def pW : Project :=
  { id := 1, customer_id := 1, name := "Living Room Furnishing",
    description := none, estimated_total := 15000000, remaining_amount := 0,
    status := ProjectStatus.active, start_date := none, end_date := none,
    created_at := 0, updated_at := 0 }

def txCreditW : Transaction :=
  { id := 10, project_id := 1, customer_id := 1,
    transaction_type := TransactionType.credit, fund_source := FundSource.bank,
    amount := 5000000, payment_mode := some "NEFT", reason := "Advance payment",
    metadata := [], related_employee_id := none, related_advance_id := none }

def txDebitW : Transaction :=
  { id := 11, project_id := 1, customer_id := 1,
    transaction_type := TransactionType.debit, fund_source := FundSource.bank,
    amount := 3500000, payment_mode := some "UPI", reason := "Payment to supplier",
    metadata := [], related_employee_id := none, related_advance_id := none }

def dbW : DB :=
  { projects := [initialize_project_remaining_amount pW], activity_log := [] }

/-- Witness for C1: estimated total 150000.00, then a credit of 50000.00 and a
debit of 35000.00, ends at 135000.00. -/
theorem c1_witness :
    remainingOf 1 (processCreates [txCreditW, txDebitW] dbW) = some 13500000 := by
  have h := c1_fresh_project_invariant dbW 1 pW [txCreditW, txDebitW] rfl (by decide)
  rw [h]
  rfl

/-- Claim C2: the Initializer (`BEFORE INSERT` trigger on `projects`)
overwrites whatever `remaining_amount` the caller supplied with the supplied
`estimated_total`, and leaves every other field of the record untouched; as a
total function of the row it has no error conditions of its own. -/
theorem c2_initializer_overrides_remaining (p : Project) :
    (initialize_project_remaining_amount p).remaining_amount = p.estimated_total ∧
    (initialize_project_remaining_amount p).id = p.id ∧
    (initialize_project_remaining_amount p).customer_id = p.customer_id ∧
    (initialize_project_remaining_amount p).name = p.name ∧
    (initialize_project_remaining_amount p).description = p.description ∧
    (initialize_project_remaining_amount p).estimated_total = p.estimated_total ∧
    (initialize_project_remaining_amount p).status = p.status ∧
    (initialize_project_remaining_amount p).start_date = p.start_date ∧
    (initialize_project_remaining_amount p).end_date = p.end_date ∧
    (initialize_project_remaining_amount p).created_at = p.created_at ∧
    (initialize_project_remaining_amount p).updated_at = p.updated_at := by
  unfold initialize_project_remaining_amount
  exact ⟨rfl, rfl, rfl, rfl, rfl, rfl, rfl, rfl, rfl, rfl, rfl⟩

/-- Claim C3: on a Transaction modification the `UPDATE` branch applies to the
project identified by `NEW.project_id` a single combined delta: the reversal
of the old state (`+old_amount` for an old credit, `-old_amount` for an old
debit) minus the new amount when the new type is credit, plus the new amount
otherwise. -/
theorem c3_modify_combined_delta (db : DB) (old new : Transaction) (p : Project)
    (hp : findProject new.project_id db = some p) :
    remainingOf new.project_id (transactionUpdateTrigger old new db) =
      some (p.remaining_amount +
        (if new.transaction_type = TransactionType.credit then
          (if old.transaction_type = TransactionType.credit then old.amount else -old.amount)
            - new.amount
         else
          (if old.transaction_type = TransactionType.credit then old.amount else -old.amount)
            + new.amount)) := by
  have hstep :
      remainingOf new.project_id (transactionUpdateTrigger old new db) =
        ((updateProjects new.project_id
          (if new.transaction_type = TransactionType.credit then
            (if old.transaction_type = TransactionType.credit then old.amount else -old.amount)
              - new.amount
           else
            (if old.transaction_type = TransactionType.credit then old.amount else -old.amount)
              + new.amount)
          db.projects).find? (fun q => q.id == new.project_id)).map
            (fun q => q.remaining_amount) := rfl
  rw [hstep, find_updateProjects_self new.project_id _ db p hp]
  rfl

def pM : Project :=
  { id := 1, customer_id := 1, name := "Living Room Furnishing",
    description := none, estimated_total := 15000000, remaining_amount := 13500000,
    status := ProjectStatus.active, start_date := none, end_date := none,
    created_at := 0, updated_at := 0 }

def dbM : DB := { projects := [pM], activity_log := [] }

def txDebitOldM : Transaction :=
  { id := 11, project_id := 1, customer_id := 1,
    transaction_type := TransactionType.debit, fund_source := FundSource.bank,
    amount := 3500000, payment_mode := some "UPI", reason := "Payment to supplier",
    metadata := [], related_employee_id := none, related_advance_id := none }

def txDebitNewM : Transaction :=
  { txDebitOldM with amount := 4000000 }

/-- Witness for C3: changing a debit transaction's amount from 35000.00 to
40000.00 (same project, same type) moves the remaining amount from 135000.00
to 140000.00, a net `+5000.00`. -/
theorem c3_witness :
    remainingOf 1 (transactionUpdateTrigger txDebitOldM txDebitNewM dbM) =
      some 14000000 := by
  have h := c3_modify_combined_delta dbM txDebitOldM txDebitNewM pM rfl
  rw [show txDebitNewM.project_id = 1 from rfl] at h
  rw [h]
  rfl

def p4a : Project :=
  { id := 1, customer_id := 1, name := "P1",
    description := none, estimated_total := 10000000, remaining_amount := 5000000,
    status := ProjectStatus.active, start_date := none, end_date := none,
    created_at := 0, updated_at := 0 }

def p4b : Project :=
  { id := 2, customer_id := 1, name := "P2",
    description := none, estimated_total := 20000000, remaining_amount := 8000000,
    status := ProjectStatus.active, start_date := none, end_date := none,
    created_at := 0, updated_at := 0 }

def db4 : DB := { projects := [p4a, p4b], activity_log := [] }

def tx4old : Transaction :=
  { id := 7, project_id := 1, customer_id := 1,
    transaction_type := TransactionType.credit, fund_source := FundSource.bank,
    amount := 1000000, payment_mode := some "NEFT", reason := "Advance",
    metadata := [], related_employee_id := none, related_advance_id := none }

def tx4new : Transaction :=
  { tx4old with project_id := 2 }

/-- Claim C4, behaviour of the code at the failing input: moving a credit
transaction of 10000.00 from project 1 (remaining 50000.00) to project 2
(remaining 80000.00) leaves both balances unchanged, because the `UPDATE`
branch applies the single combined delta (here `+10000.00 - 10000.00 = 0`)
to `NEW.project_id` only; the claimed behaviour would end with project 1 at
60000.00 and project 2 at 70000.00. -/
theorem c4_cross_project_modify_code_behavior :
    remainingOf 1 (transactionUpdateTrigger tx4old tx4new db4) = some 5000000 ∧
    remainingOf 2 (transactionUpdateTrigger tx4old tx4new db4) = some 8000000 := by
  exact ⟨rfl, rfl⟩

/-- Claim C5: the `DELETE` branch applies `+amount` for a credit and
`-amount` for a debit — the exact negation of the create-time delta — to the
project the transaction belonged to (`OLD.project_id`). -/
theorem c5_remove_reverses_create_delta (db : DB) (old : Transaction) (p : Project)
    (hp : findProject old.project_id db = some p) :
    remainingOf old.project_id (transactionDeleteTrigger old db) =
      some (p.remaining_amount +
        (if old.transaction_type = TransactionType.credit then old.amount
         else -old.amount)) := by
  have hstep :
      remainingOf old.project_id (transactionDeleteTrigger old db) =
        ((updateProjects old.project_id
          (if old.transaction_type = TransactionType.credit then old.amount else -old.amount)
          db.projects).find? (fun q => q.id == old.project_id)).map
            (fun q => q.remaining_amount) := rfl
  rw [hstep, find_updateProjects_self old.project_id _ db p hp]
  rfl

def p5 : Project :=
  { id := 3, customer_id := 2, name := "Bedroom Makeover",
    description := none, estimated_total := 8500000, remaining_amount := 6000000,
    status := ProjectStatus.active, start_date := none, end_date := none,
    created_at := 0, updated_at := 0 }

def db5 : DB := { projects := [p5], activity_log := [] }

def tx5 : Transaction :=
  { id := 12, project_id := 3, customer_id := 2,
    transaction_type := TransactionType.credit, fund_source := FundSource.cash,
    amount := 2500000, payment_mode := some "Cash", reason := "Initial deposit",
    metadata := [], related_employee_id := none, related_advance_id := none }

/-- Witness for C5: removing a credit transaction of 25000.00 from a project
with remaining amount 60000.00 yields 85000.00. -/
theorem c5_witness :
    remainingOf 3 (transactionDeleteTrigger tx5 db5) = some 8500000 := by
  have h := c5_remove_reverses_create_delta db5 tx5 p5 rfl
  rw [show tx5.project_id = 3 from rfl] at h
  rw [h]
  rfl

/-- Claim C6: creating a transaction and then immediately removing it returns
every project's `remaining_amount` to its pre-create value exactly; in the
two-decimal fixed-point (integer hundredths) model the insert delta and the
delete delta are exact negations, so no drift is possible. -/
theorem c6_create_remove_roundtrip (db : DB) (t : Transaction) (pid : Nat) :
    remainingOf pid (transactionDeleteTrigger t (transactionInsertTrigger t db)) =
      remainingOf pid db := by
  have hstep :
      remainingOf pid (transactionDeleteTrigger t (transactionInsertTrigger t db)) =
        ((updateProjects t.project_id
            (if t.transaction_type = TransactionType.credit then t.amount else -t.amount)
          (updateProjects t.project_id
            (if t.transaction_type = TransactionType.credit then -t.amount else t.amount)
            db.projects)).find? (fun q => q.id == pid)).map
          (fun q => q.remaining_amount) := rfl
  rw [hstep, find_updateProjects, find_updateProjects]
  unfold remainingOf findProject
  cases hf : db.projects.find? (fun q => q.id == pid) with
  | none => rfl
  | some p =>
    simp only [Option.map_some']
    unfold applyDelta
    by_cases h : p.id = t.project_id
    · cases htt : t.transaction_type <;> cases p <;> simp_all
    · simp [h]

/-- A transaction mutation, one per `TG_OP` of the trigger
`update_project_balance_on_transaction` (`AFTER INSERT OR UPDATE OR DELETE`). -/
inductive TxMutation where
  | create (new : Transaction)
  | modify (old new : Transaction)
  | remove (old : Transaction)
deriving DecidableEq, Repr

def applyMutation : TxMutation → DB → DB
  | TxMutation.create n, db => transactionInsertTrigger n db
  | TxMutation.modify o n, db => transactionUpdateTrigger o n db
  | TxMutation.remove o, db => transactionDeleteTrigger o db

/-- The project a mutation's balance adjustment targets
(`NEW.project_id` on create/modify, `OLD.project_id` on remove). -/
def mutationProject : TxMutation → Nat
  | TxMutation.create n => n.project_id
  | TxMutation.modify _ n => n.project_id
  | TxMutation.remove o => o.project_id

def mutationTxId : TxMutation → Nat
  | TxMutation.create n => n.id
  | TxMutation.modify _ n => n.id
  | TxMutation.remove o => o.id

/-- The numeric `amount_change` the trigger computes for each mutation. -/
def mutationDelta : TxMutation → Int
  | TxMutation.create n =>
    if n.transaction_type = TransactionType.credit then -n.amount else n.amount
  | TxMutation.modify o n =>
    if n.transaction_type = TransactionType.credit then
      (if o.transaction_type = TransactionType.credit then o.amount else -o.amount) - n.amount
    else
      (if o.transaction_type = TransactionType.credit then o.amount else -o.amount) + n.amount
  | TxMutation.remove o =>
    if o.transaction_type = TransactionType.credit then o.amount else -o.amount

/-- Claim C7: every create, modify, or remove of a Transaction appends
exactly one new Activity Log entry — action `project_balance_updated`,
actor type `system` — whose payload carries the affected project id, the
transaction id, and the applied delta; only the remove variant carries the
`operation = delete` marker, and the previously written log entries are
reproduced unchanged in front of the new one. -/
theorem c7_audit_entry (m : TxMutation) (db : DB) :
    ∃ e : ActivityLogEntry,
      (applyMutation m db).activity_log = db.activity_log ++ [e] ∧
      e.action = "project_balance_updated" ∧
      e.actor_type = some "system" ∧
      e.data.lookup "project_id" = some (JValue.id (mutationProject m)) ∧
      e.data.lookup "transaction_id" = some (JValue.id (mutationTxId m)) ∧
      e.data.lookup "amount_change" = some (JValue.num (mutationDelta m)) ∧
      e.data.lookup "operation" =
        (match m with
         | TxMutation.remove _ => some (JValue.str "delete")
         | _ => none) := by
  cases m with
  | create n =>
    refine ⟨_, rfl, rfl, rfl, rfl, rfl, ?_, ?_⟩ <;> rfl
  | modify o n =>
    refine ⟨_, rfl, rfl, rfl, rfl, rfl, ?_, ?_⟩ <;> rfl
  | remove o =>
    refine ⟨_, rfl, rfl, rfl, rfl, rfl, ?_, ?_⟩ <;> rfl

def p8 : Project :=
  { id := 1, customer_id := 1, name := "P1",
    description := none, estimated_total := 10000000, remaining_amount := 5000000,
    status := ProjectStatus.active, start_date := none, end_date := none,
    created_at := 0, updated_at := 0 }

def db8 : DB := { projects := [p8], activity_log := [] }

def tx8 : Transaction :=
  { id := 21, project_id := 99, customer_id := 1,
    transaction_type := TransactionType.credit, fund_source := FundSource.bank,
    amount := 1000000, payment_mode := some "NEFT", reason := "Advance",
    metadata := [], related_employee_id := none, related_advance_id := none }

/-- Claim C8, behaviour of the code at the failing input: a transaction
whose `project_id` (99) matches no project row.  The insert branch's balance
`UPDATE` affects zero rows (`projects` unchanged), yet the trigger raises no
error, still appends its audit entry, and completes normally — it silently
continues instead of surfacing a fatal consistency error and aborting. -/
theorem c8_missing_project_silent_continue :
    findProject 99 db8 = none ∧
    (transactionInsertTrigger tx8 db8).projects = db8.projects ∧
    (transactionInsertTrigger tx8 db8).activity_log.length =
      db8.activity_log.length + 1 := by
  exact ⟨rfl, rfl, rfl⟩

/-- Row of `public.petty_cash_advance` as seen by the PettyCash page. -/
structure Advance where
  id : Nat
  employee_id : Nat
  project_id : Option Nat
  advance_amount : Int
  expense_total : Int
  returned_amount : Int
  status : AdvanceStatus
  notes : String
deriving DecidableEq, Repr

/-- Effect on one `petty_cash_advance` row of the page's
`update({expense_total, returned_amount, status: closed}).eq('id', targetId)`. -/
def completeAdvanceRow (expenseTotal returnedAmount : Int) (targetId : Nat)
    (a : Advance) : Advance :=
  if a.id = targetId then
    { a with expense_total := expenseTotal, returned_amount := returnedAmount,
             status := AdvanceStatus.closed }
  else a

/-- `handleComplete` of the PettyCash page: parse the two entered amounts,
reject when `expenseTotal + returnedAmount` differs from the advance's
`advance_amount` before issuing any write, otherwise issue the closing
update against the store. -/
def handleComplete (selectedAdvance : Advance) (expenseTotal returnedAmount : Int)
    (advances : List Advance) : Except String (List Advance) :=
  if expenseTotal + returnedAmount ≠ selectedAdvance.advance_amount then
    Except.error "Expense + Returned amount must equal Advance amount"
  else
    Except.ok (advances.map (completeAdvanceRow expenseTotal returnedAmount selectedAdvance.id))

/-- Claim C9: closing a Petty-Cash Advance is rejected — with no write at
all — whenever the entered expense total plus returned amount differs from
the advance's `advance_amount`; when they are equal the selected advance row
(and only it) is rewritten with exactly those two amounts and status
`closed`, its remaining fields untouched. -/
theorem c9_close_advance_validation (adv : Advance) (e r : Int) (advances : List Advance) :
    (e + r ≠ adv.advance_amount →
      handleComplete adv e r advances =
        Except.error "Expense + Returned amount must equal Advance amount") ∧
    (e + r = adv.advance_amount →
      handleComplete adv e r advances =
        Except.ok (advances.map (completeAdvanceRow e r adv.id))) ∧
    (∀ a : Advance, a.id = adv.id →
      (completeAdvanceRow e r adv.id a).expense_total = e ∧
      (completeAdvanceRow e r adv.id a).returned_amount = r ∧
      (completeAdvanceRow e r adv.id a).status = AdvanceStatus.closed ∧
      (completeAdvanceRow e r adv.id a).id = a.id ∧
      (completeAdvanceRow e r adv.id a).employee_id = a.employee_id ∧
      (completeAdvanceRow e r adv.id a).project_id = a.project_id ∧
      (completeAdvanceRow e r adv.id a).advance_amount = a.advance_amount ∧
      (completeAdvanceRow e r adv.id a).notes = a.notes) ∧
    (∀ a : Advance, a.id ≠ adv.id → completeAdvanceRow e r adv.id a = a) := by
  refine ⟨fun h => ?_, fun h => ?_, fun a ha => ?_, fun a ha => ?_⟩
  · unfold handleComplete
    rw [if_pos h]
  · unfold handleComplete
    rw [if_neg (by simpa using h)]
  · unfold completeAdvanceRow
    rw [if_pos ha]
    exact ⟨rfl, rfl, rfl, rfl, rfl, rfl, rfl, rfl⟩
  · unfold completeAdvanceRow
    rw [if_neg ha]

def advW : Advance :=
  { id := 5, employee_id := 2, project_id := none, advance_amount := 1000000,
    expense_total := 0, returned_amount := 0, status := AdvanceStatus.open_,
    notes := "For miscellaneous procurement items" }

/-- Witness for C9: on an advance of 10000.00, entering 7500.00 spent and
2000.00 returned (sum 9500.00) is rejected with no write, while 7500.00
spent and 2500.00 returned closes the advance with exactly those amounts. -/
theorem c9_witness :
    handleComplete advW 750000 200000 [advW] =
      Except.error "Expense + Returned amount must equal Advance amount" ∧
    handleComplete advW 750000 250000 [advW] =
      Except.ok [{ advW with
                   expense_total := 750000,
                   returned_amount := 250000,
                   status := AdvanceStatus.closed }] := by
  constructor
  · exact (c9_close_advance_validation advW 750000 200000 [advW]).1 (by decide)
  · have h := (c9_close_advance_validation advW 750000 250000 [advW]).2.1 (by decide)
    rw [h]
    rfl

inductive AdvanceKind where
  | personal
  | office
deriving DecidableEq, Repr

/-- The PettyCash page's `formData` state; the empty `project_id` select
(`''`, falsy in the source) is `none`.  The form carries no expense or
return fields at all. -/
structure PettyCashForm where
  employee_id : Nat
  project_id : Option Nat
  advance_amount : Int
  type : AdvanceKind
  notes : String
deriving DecidableEq, Repr

/-- The record the page inserts into `petty_cash_advance` (`advanceData`). -/
structure AdvanceInsert where
  employee_id : Nat
  project_id : Option Nat
  advance_amount : Int
  expense_total : Int
  returned_amount : Int
  status : AdvanceStatus
  notes : String
deriving DecidableEq, Repr

/-- `handleSubmit` of the PettyCash page: reject an office advance without a
project, otherwise build `advanceData` with `expense_total: 0`,
`returned_amount: 0`, `status: 'open'`, the project only for office
advances, and insert it. -/
def handleSubmit (formData : PettyCashForm) : Except String AdvanceInsert :=
  if formData.type = AdvanceKind.office ∧ formData.project_id = none then
    Except.error "Project is required for office expenses"
  else
    Except.ok
      { employee_id := formData.employee_id,
        project_id :=
          if formData.type = AdvanceKind.office then formData.project_id else none,
        advance_amount := formData.advance_amount,
        expense_total := 0,
        returned_amount := 0,
        status := AdvanceStatus.open_,
        notes := formData.notes }

/-- Claim C10: every advance persisted through the creation flow starts with
`expense_total = 0`, `returned_amount = 0`, and status `open`, whatever the
form state holds; only `advance_amount`, `employee_id`, the optional
`project_id` (kept only for office advances) and `notes` come from the
input. -/
theorem c10_new_advance_defaults (formData : PettyCashForm) (row : AdvanceInsert)
    (h : handleSubmit formData = Except.ok row) :
    row.expense_total = 0 ∧
    row.returned_amount = 0 ∧
    row.status = AdvanceStatus.open_ ∧
    row.employee_id = formData.employee_id ∧
    row.advance_amount = formData.advance_amount ∧
    row.notes = formData.notes ∧
    row.project_id =
      (if formData.type = AdvanceKind.office then formData.project_id else none) := by
  unfold handleSubmit at h
  by_cases hc : formData.type = AdvanceKind.office ∧ formData.project_id = none
  · rw [if_pos hc] at h
    exact absurd h (by simp)
  · rw [if_neg hc] at h
    cases h
    exact ⟨rfl, rfl, rfl, rfl, rfl, rfl, rfl⟩

def formW : PettyCashForm :=
  { employee_id := 2, project_id := some 1, advance_amount := 1000000,
    type := AdvanceKind.office, notes := "Procurement items" }

/-- Witness for C10: an office advance of 10000.00 for employee 2 on project
1 is persisted with zero expense and return totals and status `open`. -/
theorem c10_witness :
    (handleSubmit formW = Except.ok
      { employee_id := 2, project_id := some 1, advance_amount := 1000000,
        expense_total := 0, returned_amount := 0, status := AdvanceStatus.open_,
        notes := "Procurement items" }) ∧
    ({ employee_id := 2, project_id := some 1, advance_amount := 1000000,
       expense_total := 0, returned_amount := 0, status := AdvanceStatus.open_,
       notes := "Procurement items" } : AdvanceInsert).expense_total = 0 := by
  refine ⟨rfl, ?_⟩
  exact (c10_new_advance_defaults formW _ rfl).1
